import Mathlib

/-!
Shallow embedding of the Sóng library (TypeScript sources under `src/`):
`src/utils/index.ts`, `src/core/color-extractor.ts` (ColorExtractor),
`src/core/wave-extractor.ts` (WaveGenerator), `src/core/song.ts` (Song),
together with proofs of the spec's claims about them.

Modelling conventions:
* RGB channels are JS numbers that in every code path of interest hold
  integers; we model them as `Int` (clamping/rounding in `rgbToHex` then acts
  on integers, where `Math.round` is the identity).
* Fractional arithmetic (luminance weights, saturation, harmony scores) is
  modelled over `ℚ`; the TS code uses IEEE doubles, but every claim concerns
  order comparisons and exact fractions expressible in `ℚ`.
* The async/DOM layer is modelled by passing the outcome of the one
  suspension point (image decoding + pixel extraction) as an explicit
  `Except String (List ColorRGB)` argument, and recording DOM side effects
  (gradient application to a target element) in the returned record.
-/

namespace Song2

/-- `ColorRGB` from `src/types/index.ts`: three numeric channels. -/
structure ColorRGB where
  r : Int
  g : Int
  b : Int
deriving DecidableEq, Repr

/-- `calculateBrightness` from `src/utils/index.ts`:
`0.299 * color.r + 0.587 * color.g + 0.114 * color.b`. -/
def calculateBrightness (color : ColorRGB) : ℚ :=
  (299 / 1000 : ℚ) * color.r + (587 / 1000 : ℚ) * color.g +
    (114 / 1000 : ℚ) * color.b

/-- `calculateColorDifference` from `src/utils/index.ts`: Manhattan distance
`|r1-r2| + |g1-g2| + |b1-b2|`. -/
def calculateColorDifference (color1 color2 : ColorRGB) : Int :=
  |color1.r - color2.r| + |color1.g - color2.g| + |color1.b - color2.b|

/-- `isColorUnique` from `src/utils/index.ts`:
`!existingColors.some(existing => calculateColorDifference(color, existing) < threshold)`. -/
def isColorUnique (color : ColorRGB) (existingColors : List ColorRGB)
    (threshold : Int) : Bool :=
  !(existingColors.any fun existing =>
    calculateColorDifference color existing < threshold)

/-- First fallback color `{ r: 107, g: 70, b: 193 }` (#6B46C1) used by
`ColorExtractor.filterColors`. -/
def fallbackPurple : ColorRGB := ⟨107, 70, 193⟩

/-- Second fallback color `{ r: 236, g: 72, b: 153 }` (#EC4899) used by
`ColorExtractor.filterColors`. -/
def fallbackPink : ColorRGB := ⟨236, 72, 153⟩

/-- The `for (const color of colors)` loop of `ColorExtractor.filterColors`
(`src/core/color-extractor.ts`), accumulating the `filtered` array:
skip a color whose brightness is `< 40` or `> 200` (the `continue` also skips
the loop-exit test), push it if `isColorUnique(color, filtered, 80)`, and
`break` as soon as `filtered.length >= targetCount`. -/
def filterLoop (targetCount : Nat) :
    List ColorRGB → List ColorRGB → List ColorRGB
  | [], filtered => filtered
  | color :: rest, filtered =>
    let brightness := calculateBrightness color
    if brightness < 40 ∨ brightness > 200 then
      filterLoop targetCount rest filtered
    else
      let filtered' :=
        if isColorUnique color filtered 80 then filtered ++ [color]
        else filtered
      if filtered'.length ≥ targetCount then filtered'
      else filterLoop targetCount rest filtered'

/-- The `while (filtered.length < targetCount)` padding loop of
`ColorExtractor.filterColors`: push purple when `filtered.length === 0`,
pink otherwise.  Each iteration grows the array by one, so the loop runs at
most `targetCount` times; the first argument is that structural fuel. -/
def padLoop : Nat → Nat → List ColorRGB → List ColorRGB
  | 0, _, filtered => filtered
  | fuel + 1, targetCount, filtered =>
    if filtered.length < targetCount then
      padLoop fuel targetCount
        (filtered ++ [if filtered.length = 0 then fallbackPurple else fallbackPink])
    else filtered

/-- `ColorExtractor.filterColors` from `src/core/color-extractor.ts`:
the filtering loop, then fallback padding, then `slice(0, targetCount)`. -/
def filterColors (colors : List ColorRGB) (targetCount : Nat) : List ColorRGB :=
  (padLoop targetCount targetCount (filterLoop targetCount colors [])).take targetCount

theorem padLoop_length_ge (fuel targetCount : Nat) (filtered : List ColorRGB)
    (h : targetCount ≤ fuel + filtered.length) :
    targetCount ≤ (padLoop fuel targetCount filtered).length := by
  induction fuel generalizing filtered with
  | zero => simpa [padLoop] using h
  | succ n ih =>
    rw [padLoop]
    by_cases hlt : filtered.length < targetCount
    · simp only [hlt, if_true]
      apply ih
      simp only [List.length_append, List.length_cons, List.length_nil]
      omega
    · simp only [hlt, if_false]
      omega

theorem padLoop_of_ge (fuel targetCount : Nat) (filtered : List ColorRGB)
    (h : targetCount ≤ filtered.length) :
    padLoop fuel targetCount filtered = filtered := by
  cases fuel with
  | zero => rfl
  | succ n => rw [padLoop]; simp [Nat.not_lt.mpr h]

/-- C1: for every candidate list and every requested count (in particular
every count ≥ 1), `filterColors` returns exactly `targetCount` colors. -/
theorem filterColors_length (colors : List ColorRGB) (targetCount : Nat)
    (h : 1 ≤ targetCount) :
    (filterColors colors targetCount).length = targetCount := by
  have hge := padLoop_length_ge targetCount targetCount
    (filterLoop targetCount colors []) (by omega)
  simp [filterColors, List.length_take]
  omega

/-- C1 witness: a concrete run, `filterColors [] 2` has length 2. -/
theorem filterColors_length_witness :
    (filterColors [] 2).length = 2 :=
  filterColors_length [] 2 (by decide)

/-- C2 counterexample: one real color (gray 100,100,100, brightness 100)
survives filtering with target count 3; both pads are pink — the first pad is
not purple. -/
theorem filterColors_pad_counterexample :
    filterColors [⟨100, 100, 100⟩] 3 =
      [⟨100, 100, 100⟩, fallbackPink, fallbackPink] ∧
    fallbackPink ≠ fallbackPurple := by
  constructor
  · norm_num [filterColors, filterLoop, padLoop, calculateBrightness,
      isColorUnique, calculateColorDifference]
  · decide

theorem padLoop_ne_nil (fuel targetCount : Nat) (filtered : List ColorRGB)
    (hne : filtered ≠ []) (hfuel : targetCount ≤ fuel + filtered.length) :
    padLoop fuel targetCount filtered =
      filtered ++ List.replicate (targetCount - filtered.length) fallbackPink := by
  induction fuel generalizing filtered with
  | zero =>
    have : targetCount - filtered.length = 0 := by omega
    simp [padLoop, this]
  | succ n ih =>
    rw [padLoop]
    by_cases hlt : filtered.length < targetCount
    · have hlen0 : filtered.length ≠ 0 := by
        simpa [List.length_eq_zero] using hne
      simp only [hlt, if_true, hlen0, if_false]
      rw [ih (filtered ++ [fallbackPink]) (by simp) (by simp; omega)]
      have : targetCount - filtered.length =
          (targetCount - (filtered ++ [fallbackPink]).length) + 1 := by
        simp only [List.length_append, List.length_cons, List.length_nil]
        omega
      rw [this, List.append_assoc]
      simp [List.replicate_succ]
    · have : targetCount - filtered.length = 0 := by omega
      simp [hlt, this]

/-- C2 amended: when filtering leaves fewer than `targetCount` colors, the
padding is deterministic, but the first pad is purple only when *no* real
color survived; when at least one survived, every pad is pink. -/
theorem filterColors_padding (colors : List ColorRGB) (targetCount : Nat)
    (f : List ColorRGB) (hf : f = filterLoop targetCount colors [])
    (hlt : f.length < targetCount) :
    filterColors colors targetCount =
      f ++ (if f = [] then
              fallbackPurple :: List.replicate (targetCount - 1) fallbackPink
            else
              List.replicate (targetCount - f.length) fallbackPink) := by
  by_cases hnil : f = []
  · subst hnil
    have hpad : padLoop targetCount targetCount ([] : List ColorRGB) =
        fallbackPurple :: List.replicate (targetCount - 1) fallbackPink := by
      cases targetCount with
      | zero => omega
      | succ n =>
        rw [padLoop]
        simp only [List.length_nil, Nat.succ_pos, if_true, List.nil_append]
        rw [padLoop_ne_nil n (n + 1) [fallbackPurple] (by simp) (by simp)]
        simp
    have hlen : (fallbackPurple :: List.replicate (targetCount - 1) fallbackPink).length
        = targetCount := by
      simp; omega
    simp only [filterColors, ← hf, hpad, if_pos rfl, List.nil_append]
    exact List.take_of_length_le (le_of_eq hlen)
  · have hpad := padLoop_ne_nil targetCount targetCount f hnil (by omega)
    have hlen : (f ++ List.replicate (targetCount - f.length) fallbackPink).length
        = targetCount := by
      simp; omega
    simp only [filterColors, ← hf, hpad, if_neg hnil]
    exact List.take_of_length_le (le_of_eq hlen)

/-- C2 amended, witness: no real color survives from an empty candidate list
with target 2, so the pads are purple then pink. -/
theorem filterColors_padding_witness :
    filterColors [] 2 =
      [] ++ (if ([] : List ColorRGB) = [] then
               fallbackPurple :: List.replicate (2 - 1) fallbackPink
             else
               List.replicate (2 - List.length ([] : List ColorRGB)) fallbackPink) :=
  filterColors_padding [] 2 [] (by decide) (by decide)

theorem calculateColorDifference_comm (a b : ColorRGB) :
    calculateColorDifference a b = calculateColorDifference b a := by
  simp [calculateColorDifference, abs_sub_comm]

theorem isColorUnique_spec (color : ColorRGB) (existingColors : List ColorRGB)
    (threshold : Int) (h : isColorUnique color existingColors threshold = true) :
    ∀ e ∈ existingColors, threshold ≤ calculateColorDifference color e := by
  intro e he
  simp only [isColorUnique, Bool.not_eq_true', List.any_eq_false,
    decide_eq_true_eq] at h
  exact not_lt.mp (h e he)

theorem filterLoop_pairwise (targetCount : Nat) (colors filtered : List ColorRGB)
    (h : filtered.Pairwise fun a b => 80 ≤ calculateColorDifference a b) :
    (filterLoop targetCount colors filtered).Pairwise
      fun a b => 80 ≤ calculateColorDifference a b := by
  induction colors generalizing filtered with
  | nil => simpa [filterLoop] using h
  | cons color rest ih =>
    simp only [filterLoop]
    by_cases hb : calculateBrightness color < 40 ∨ calculateBrightness color > 200
    · rw [if_pos hb]
      exact ih filtered h
    · rw [if_neg hb]
      by_cases hu : isColorUnique color filtered 80 = true
      · have hpair : (filtered ++ [color]).Pairwise
            fun a b => 80 ≤ calculateColorDifference a b := by
          rw [List.pairwise_append]
          refine ⟨h, List.pairwise_singleton _ _, ?_⟩
          intro a ha b hb'
          simp only [List.mem_singleton] at hb'
          rw [hb', calculateColorDifference_comm]
          exact isColorUnique_spec color filtered 80 hu a ha
        rw [if_pos hu]
        by_cases hlen : (filtered ++ [color]).length ≥ targetCount
        · rw [if_pos hlen]
          exact hpair
        · rw [if_neg hlen]
          exact ih _ hpair
      · rw [if_neg hu]
        by_cases hlen : filtered.length ≥ targetCount
        · rw [if_pos hlen]
          exact h
        · rw [if_neg hlen]
          exact ih filtered h

/-- C6: every two distinct colors accepted by the filtering loop (before
fallback padding) are at Manhattan distance ≥ 80 from each other. -/
theorem filterLoop_pairwise_distance (colors : List ColorRGB) (targetCount : Nat) :
    (filterLoop targetCount colors []).Pairwise
      fun a b => 80 ≤ calculateColorDifference a b :=
  filterLoop_pairwise targetCount colors [] (List.Pairwise.nil)

/-- The per-color saturation approximation inside `analyzeColorMood`
(`src/utils/index.ts`): `max === 0 ? 0 : (max - min) / max` where `max`/`min`
range over the three channels. -/
def saturationOf (color : ColorRGB) : ℚ :=
  let mx := max color.r (max color.g color.b)
  let mn := min color.r (min color.g color.b)
  if mx = 0 then 0 else ((mx : ℚ) - (mn : ℚ)) / (mx : ℚ)

/-- `analyzeColorMood` from `src/utils/index.ts`: `"neutral"` on empty input,
otherwise a fixed threshold table over the average brightness and the average
saturation approximation. -/
def analyzeColorMood (colors : List ColorRGB) : String :=
  if colors.length = 0 then "neutral"
  else
    let totalSaturation := (colors.map saturationOf).sum
    let totalBrightness := (colors.map calculateBrightness).sum
    let avgSaturation := totalSaturation / colors.length
    let avgBrightness := totalBrightness / colors.length
    if avgBrightness > 180 ∧ avgSaturation > 0.5 then "energetic"
    else if avgBrightness < 80 ∧ avgSaturation < 0.3 then "calm"
    else if avgSaturation > 0.7 then "vibrant"
    else if avgBrightness > 150 then "bright"
    else if avgBrightness < 100 then "dark"
    else "balanced"

/-- The mood threshold table exactly as the spec words it (§4.5), as a
function of the two aggregate quantities. -/
def specMoodTable (avgBrightness avgSaturation : ℚ) : String :=
  if avgBrightness > 180 ∧ avgSaturation > 0.5 then "energetic"
  else if avgBrightness < 80 ∧ avgSaturation < 0.3 then "calm"
  else if avgSaturation > 0.7 then "vibrant"
  else if avgBrightness > 150 then "bright"
  else if avgBrightness < 100 then "dark"
  else "balanced"

/-- Mood classification as the spec describes it: neutral on empty input,
otherwise the table applied to average brightness and averaged per-color
`(max-min)/max` saturation. -/
def specMood (colors : List ColorRGB) : String :=
  if colors = [] then "neutral"
  else
    specMoodTable ((colors.map calculateBrightness).sum / colors.length)
      ((colors.map saturationOf).sum / colors.length)

/-- C8: the mood classifier follows the spec's fixed threshold table, and on
two pure-white colors (brightness 255, saturation 0) it answers "bright". -/
theorem analyzeColorMood_spec :
    analyzeColorMood [⟨255, 255, 255⟩, ⟨255, 255, 255⟩] = "bright" ∧
    ∀ colors : List ColorRGB, analyzeColorMood colors = specMood colors := by
  constructor
  · norm_num [analyzeColorMood, calculateBrightness, saturationOf]
  · intro colors
    cases colors with
    | nil => rfl
    | cons c rest =>
      simp only [analyzeColorMood, specMood, specMoodTable,
        List.length_cons, Nat.succ_ne_zero, if_false]
      rfl

/-- All unordered index pairs `(i, j)` with `i < j`, in the traversal order of
the double loop in `calculateHarmony` (`src/utils/index.ts`). -/
def allPairs : List ColorRGB → List (ColorRGB × ColorRGB)
  | [] => []
  | c :: rest => (rest.map fun d => (c, d)) ++ allPairs rest

/-- One iteration of the inner loop of `calculateHarmony`: the score
`max(0, 1 - |diff - 150| / 150)` added to the accumulator. -/
def pairScore (p : ColorRGB × ColorRGB) : ℚ :=
  max 0 (1 - |((calculateColorDifference p.1 p.2 : ℚ)) - 150| / 150)

/-- `calculateHarmony` from `src/utils/index.ts`: 1 for fewer than two
colors, otherwise the summed pair scores divided by the number of
comparisons (guarded by `comparisons > 0`). -/
def calculateHarmony (colors : List ColorRGB) : ℚ :=
  if colors.length < 2 then 1
  else
    let harmonyScore := ((allPairs colors).map pairScore).sum
    let comparisons := (allPairs colors).length
    if comparisons > 0 then harmonyScore / comparisons else 1

/-- Harmony as the spec words it: the average over all `C(n,2)` unordered
color pairs of `max(0, 1 - |pairwise_Manhattan_distance - 150| / 150)`;
1 for fewer than 2 colors. -/
def specHarmony (colors : List ColorRGB) : ℚ :=
  if colors.length < 2 then 1
  else ((allPairs colors).map pairScore).sum / (colors.length.choose 2)

theorem allPairs_length (colors : List ColorRGB) :
    (allPairs colors).length = colors.length.choose 2 := by
  induction colors with
  | nil => rfl
  | cons c rest ih =>
    simp only [allPairs, List.length_append, List.length_map, ih,
      List.length_cons]
    rw [Nat.choose_succ_succ' rest.length 1]
    simp [Nat.choose_one_right, Nat.add_comm]

theorem pairScore_nonneg (p : ColorRGB × ColorRGB) : 0 ≤ pairScore p :=
  le_max_left 0 _

theorem pairScore_le_one (p : ColorRGB × ColorRGB) : pairScore p ≤ 1 := by
  apply max_le
  · norm_num
  · have h : 0 ≤ |((calculateColorDifference p.1 p.2 : ℚ)) - 150| / 150 := by
      positivity
    linarith

/-- C7: harmony is always in `[0,1]`, is exactly 1 for fewer than two colors,
and equals the spec's average-of-pair-scores formula. -/
theorem calculateHarmony_spec (colors : List ColorRGB) :
    0 ≤ calculateHarmony colors ∧ calculateHarmony colors ≤ 1 ∧
    (colors.length < 2 → calculateHarmony colors = 1) ∧
    calculateHarmony colors = specHarmony colors := by
  have hsum_nonneg : 0 ≤ ((allPairs colors).map pairScore).sum :=
    List.sum_nonneg fun x hx => by
      obtain ⟨p, _, rfl⟩ := List.mem_map.mp hx
      exact pairScore_nonneg p
  have hsum_le : ((allPairs colors).map pairScore).sum ≤
      ((allPairs colors).length : ℚ) := by
    have h := List.sum_le_card_nsmul ((allPairs colors).map pairScore) 1
      (fun x hx => by
        obtain ⟨p, _, rfl⟩ := List.mem_map.mp hx
        exact pairScore_le_one p)
    simpa [List.length_map, nsmul_eq_mul] using h
  by_cases hlt : colors.length < 2
  · refine ⟨?_, ?_, fun _ => ?_, ?_⟩ <;>
      simp [calculateHarmony, specHarmony, hlt]
  · have hchoose : 0 < colors.length.choose 2 :=
      Nat.choose_pos (by omega)
    have hpos : 0 < (allPairs colors).length := by
      rw [allPairs_length]; exact hchoose
    have hposQ : (0 : ℚ) < ((allPairs colors).length : ℚ) := by
      exact_mod_cast hpos
    refine ⟨?_, ?_, fun h => absurd h hlt, ?_⟩
    · simp only [calculateHarmony, hlt, if_false, hpos, if_pos]
      exact div_nonneg hsum_nonneg (le_of_lt hposQ)
    · simp only [calculateHarmony, hlt, if_false, hpos, if_pos]
      rw [div_le_one hposQ]
      exact hsum_le
    · simp only [calculateHarmony, specHarmony, hlt, if_false, hpos, if_pos,
        allPairs_length]
      rw [if_pos hchoose]

/-- A lowercase hex digit character as produced by JS
`Number.prototype.toString(16)` for a value below 16. -/
def hexDigitChar (n : Nat) : Char :=
  if n < 10 then Char.ofNat (48 + n) else Char.ofNat (87 + n)

/-- The `toHex` helper inside `rgbToHex` (`src/utils/index.ts`):
`Math.round(Math.max(0, Math.min(255, n)))` (rounding is the identity on the
integer channels modelled here) followed by `toString(16).padStart(2, "0")`,
which for a value in `[0, 255]` is exactly the two lowercase hex digits. -/
def toHexByte (n : Int) : List Char :=
  let m := (max 0 (min 255 n)).toNat
  [hexDigitChar (m / 16), hexDigitChar (m % 16)]

/-- `rgbToHex` from `src/utils/index.ts`: `#` followed by the three channel
bytes. -/
def rgbToHex (rgb : ColorRGB) : String :=
  ⟨'#' :: (toHexByte rgb.r ++ toHexByte rgb.g ++ toHexByte rgb.b)⟩

/-- One character of the regex class `[a-f\d]` under the `i` flag. -/
def isHexDigitChar (c : Char) : Bool :=
  (decide ('0' ≤ c) && decide (c ≤ '9')) ||
  (decide ('a' ≤ c) && decide (c ≤ 'f')) ||
  (decide ('A' ≤ c) && decide (c ≤ 'F'))

/-- `parseInt(-, 16)` on a single hex digit character. -/
def charHexVal (c : Char) : Nat :=
  if c ≤ '9' then c.toNat - 48
  else if c ≤ 'F' then c.toNat - 55
  else c.toNat - 87

/-- `parseInt(-, 16)` on one two-character regex capture group. -/
def hexPairVal (c1 c2 : Char) : Nat :=
  16 * charHexVal c1 + charHexVal c2

/-- `hexToRgb` from `src/utils/index.ts`: match
`/^#?([a-f\d]{2})([a-f\d]{2})([a-f\d]{2})$/i` and parse each capture group
with `parseInt(-, 16)`; `null` (here `none`) when the regex does not match. -/
def hexToRgb (hex : String) : Option ColorRGB :=
  let body := match hex.data with
    | '#' :: rest => rest
    | cs => cs
  match body with
  | [c1, c2, c3, c4, c5, c6] =>
    if isHexDigitChar c1 && isHexDigitChar c2 && isHexDigitChar c3 &&
        isHexDigitChar c4 && isHexDigitChar c5 && isHexDigitChar c6 then
      some ⟨(hexPairVal c1 c2 : Int), (hexPairVal c3 c4 : Int),
        (hexPairVal c5 c6 : Int)⟩
    else none
  | _ => none

/-- The claim's characterisation of the accepted strings: an optional leading
`#` followed by exactly six hex digits. -/
def specIsHexColorString (s : String) : Bool :=
  let body := match s.data with
    | '#' :: rest => rest
    | cs => cs
  (body.length == 6) && body.all isHexDigitChar

theorem hexDigitChar_spec : ∀ n, n < 16 →
    isHexDigitChar (hexDigitChar n) = true ∧ charHexVal (hexDigitChar n) = n := by
  decide

theorem toHexByte_parse (n : Int) (h0 : 0 ≤ n) (h255 : n ≤ 255) :
    isHexDigitChar (hexDigitChar (n.toNat / 16)) = true ∧
    isHexDigitChar (hexDigitChar (n.toNat % 16)) = true ∧
    toHexByte n = [hexDigitChar (n.toNat / 16), hexDigitChar (n.toNat % 16)] ∧
    (hexPairVal (hexDigitChar (n.toNat / 16)) (hexDigitChar (n.toNat % 16)) : Int) = n := by
  have hm : max 0 (min 255 n) = n := by omega
  have hlt : n.toNat < 256 := by omega
  have hdiv : n.toNat / 16 < 16 := by omega
  have hmod : n.toNat % 16 < 16 := Nat.mod_lt _ (by omega)
  obtain ⟨hd1, hd2⟩ := hexDigitChar_spec _ hdiv
  obtain ⟨hm1, hm2⟩ := hexDigitChar_spec _ hmod
  refine ⟨hd1, hm1, ?_, ?_⟩
  · simp [toHexByte, hm]
  · rw [hexPairVal, hd2, hm2]
    have := Nat.div_add_mod n.toNat 16
    omega

theorem hexToRgb_rgbToHex (c : ColorRGB)
    (hr0 : 0 ≤ c.r) (hr1 : c.r ≤ 255) (hg0 : 0 ≤ c.g) (hg1 : c.g ≤ 255)
    (hb0 : 0 ≤ c.b) (hb1 : c.b ≤ 255) :
    hexToRgb (rgbToHex c) = some c := by
  obtain ⟨hrA, hrB, hrE, hrV⟩ := toHexByte_parse c.r hr0 hr1
  obtain ⟨hgA, hgB, hgE, hgV⟩ := toHexByte_parse c.g hg0 hg1
  obtain ⟨hbA, hbB, hbE, hbV⟩ := toHexByte_parse c.b hb0 hb1
  rw [rgbToHex, hrE, hgE, hbE]
  show hexToRgb ⟨_⟩ = some c
  rw [hexToRgb]
  simp only [List.cons_append, List.nil_append]
  simp only [hrA, hrB, hgA, hgB, hbA, hbB, Bool.and_true, Bool.true_and,
    if_true]
  rw [hrV, hgV, hbV]

theorem hexToRgb_eq_none_iff (s : String) :
    hexToRgb s = none ↔ specIsHexColorString s = false := by
  rw [hexToRgb, specIsHexColorString]
  generalize (match s.data with
    | '#' :: rest => rest
    | cs => cs) = body
  rcases body with _ | ⟨c1, _ | ⟨c2, _ | ⟨c3, _ | ⟨c4, _ | ⟨c5, _ | ⟨c6, _ | ⟨c7, rest⟩⟩⟩⟩⟩⟩⟩
  · simp
  · simp
  · simp
  · simp
  · simp
  · simp
  · by_cases hc : (isHexDigitChar c1 && isHexDigitChar c2 && isHexDigitChar c3 &&
        isHexDigitChar c4 && isHexDigitChar c5 && isHexDigitChar c6) = true
    · simp only [hc, if_true]
      simp only [Bool.and_eq_true] at hc
      obtain ⟨⟨⟨⟨⟨h1, h2⟩, h3⟩, h4⟩, h5⟩, h6⟩ := hc
      simp [h1, h2, h3, h4, h5, h6]
    · simp only [hc, if_false]
      constructor
      · intro _
        rw [Bool.eq_false_iff]
        intro hall
        apply hc
        simp only [beq_iff_eq, Bool.and_eq_true, List.all_cons, List.all_nil,
          Bool.and_true] at hall
        simp only [Bool.and_eq_true]
        tauto
      · intro _
        rfl
  · simp

/-- C10: converting an RGB color with integer channels in `[0,255]` to hex
and back returns the original color, and `hexToRgb` returns `none` exactly on
strings that are not an optional `#` followed by six hex digits. -/
theorem rgbToHex_hexToRgb_spec :
    (∀ c : ColorRGB, 0 ≤ c.r → c.r ≤ 255 → 0 ≤ c.g → c.g ≤ 255 →
      0 ≤ c.b → c.b ≤ 255 → hexToRgb (rgbToHex c) = some c) ∧
    (∀ s : String, hexToRgb s = none ↔ specIsHexColorString s = false) :=
  ⟨hexToRgb_rgbToHex, hexToRgb_eq_none_iff⟩

/-- C10 witness: the round trip at (16, 255, 0) and the regex
characterisation at the non-matching string "zzz". -/
theorem rgbToHex_hexToRgb_spec_witness :
    hexToRgb (rgbToHex ⟨16, 255, 0⟩) = some ⟨16, 255, 0⟩ ∧
    (hexToRgb "zzz" = none ↔ specIsHexColorString "zzz" = false) :=
  ⟨rgbToHex_hexToRgb_spec.1 ⟨16, 255, 0⟩ (by decide) (by decide) (by decide)
    (by decide) (by decide) (by decide),
   rgbToHex_hexToRgb_spec.2 "zzz"⟩

/-- `getFallbackColors` from `src/utils/index.ts`. -/
def getFallbackColors (intensity : String) : List String :=
  if intensity = "gentle" then ["#E8E3F3", "#F3E8FF"]
  else if intensity = "energetic" then ["#FF6B6B", "#4ECDC4"]
  else ["#6B46C1", "#EC4899"]

/-- `getTransitionTiming` from `src/utils/index.ts`. -/
def getTransitionTiming (flowSpeed : String) : String :=
  if flowSpeed = "slow" then "all 3s cubic-bezier(0.4, 0, 0.2, 1)"
  else if flowSpeed = "fast" then "all 0.8s cubic-bezier(0.4, 0, 0.2, 1)"
  else "all 1.5s cubic-bezier(0.4, 0, 0.2, 1)"

/-- `WaveConfig` from `src/types/index.ts`: every field optional (`none`
models an absent field). -/
structure WaveConfig where
  direction : Option String := none
  transition : Option String := none
  fallbackColors : Option (List String) := none
  colorCount : Option Nat := none
  flowSpeed : Option String := none
  intensity : Option String := none
  waveType : Option String := none
deriving DecidableEq, Repr

/-- `Required<WaveConfig>`: the fully populated configuration held by a
`WaveGenerator`. -/
structure RequiredWaveConfig where
  direction : String
  transition : String
  fallbackColors : List String
  colorCount : Nat
  flowSpeed : String
  intensity : String
  waveType : String
deriving DecidableEq, Repr

/-- JS truthiness test `!x` for an optional string: `undefined` and the empty
string are falsy. -/
def optStringFalsy : Option String → Bool
  | none => true
  | some s => s == ""

/-- The `WaveGenerator` constructor (`src/core/wave-extractor.ts`): spread the
defaults under `config`, then, when `config.transition` is falsy, re-derive
`transition` from the effective flow speed, and, when `config.fallbackColors`
is absent (arrays are always truthy), re-derive the fallback colors from the
effective intensity. -/
def WaveGenerator.initConfig (config : WaveConfig) : RequiredWaveConfig :=
  let base : RequiredWaveConfig :=
    { direction := config.direction.getD "to bottom right"
      transition := config.transition.getD "all 1.5s ease-out"
      fallbackColors := config.fallbackColors.getD ["#6B46C1", "#EC4899"]
      colorCount := config.colorCount.getD 2
      flowSpeed := config.flowSpeed.getD "medium"
      intensity := config.intensity.getD "medium"
      waveType := config.waveType.getD "linear" }
  let withTransition :=
    if optStringFalsy config.transition then
      { base with transition := getTransitionTiming base.flowSpeed }
    else base
  if config.fallbackColors.isNone then
    { withTransition with
        fallbackColors := getFallbackColors withTransition.intensity }
  else withTransition

/-- C5 evidence (code bug): with neither `transition` nor `flowSpeed`
configured, the constructor yields the cubic-bezier timing derived from the
default flow speed "medium", not the documented default
"all 1.5s ease-out"; the two strings differ. -/
theorem waveGenerator_default_transition :
    (WaveGenerator.initConfig {}).transition =
      "all 1.5s cubic-bezier(0.4, 0, 0.2, 1)" ∧
    "all 1.5s cubic-bezier(0.4, 0, 0.2, 1)" ≠ "all 1.5s ease-out" := by
  constructor
  · decide
  · decide

/-- `ExtractorOptions` from `src/types/index.ts`: every field optional. -/
structure ExtractorOptionsPartial where
  canvasSize : Option Nat := none
  sampleRate : Option Nat := none
  precision : Option Nat := none
  maxColors : Option Nat := none
deriving DecidableEq, Repr

/-- `Required<ExtractorOptions>` held by a `ColorExtractor`. -/
structure ExtractorOptionsReq where
  canvasSize : Nat
  sampleRate : Nat
  precision : Nat
  maxColors : Nat
deriving DecidableEq, Repr

/-- The `ColorExtractor` constructor's option merge
(`{ canvasSize: 150, sampleRate: 32, precision: 25, maxColors: 8, ...options }`). -/
def ColorExtractor.initOptions (options : ExtractorOptionsPartial) :
    ExtractorOptionsReq :=
  { canvasSize := options.canvasSize.getD 150
    sampleRate := options.sampleRate.getD 32
    precision := options.precision.getD 25
    maxColors := options.maxColors.getD 8 }

/-- `ColorExtractor.updateOptions`: `{ ...this.options, ...newOptions }`. -/
def ColorExtractor.updateOptions (cur : ExtractorOptionsReq)
    (newOptions : ExtractorOptionsPartial) : ExtractorOptionsReq :=
  { canvasSize := newOptions.canvasSize.getD cur.canvasSize
    sampleRate := newOptions.sampleRate.getD cur.sampleRate
    precision := newOptions.precision.getD cur.precision
    maxColors := newOptions.maxColors.getD cur.maxColors }

/-- JS truthiness of an optional string, for tests like
`if (newConfig.flowSpeed ...)`. -/
def optStringTruthy : Option String → Bool
  | none => false
  | some s => !(s == "")

/-- `WaveGenerator.updateConfig`: merge, then re-derive `transition` when a
flow speed was given without a transition, and `fallbackColors` when an
intensity was given without fallback colors. -/
def WaveGenerator.updateConfig (cur : RequiredWaveConfig)
    (newConfig : WaveConfig) : RequiredWaveConfig :=
  let merged : RequiredWaveConfig :=
    { direction := newConfig.direction.getD cur.direction
      transition := newConfig.transition.getD cur.transition
      fallbackColors := newConfig.fallbackColors.getD cur.fallbackColors
      colorCount := newConfig.colorCount.getD cur.colorCount
      flowSpeed := newConfig.flowSpeed.getD cur.flowSpeed
      intensity := newConfig.intensity.getD cur.intensity
      waveType := newConfig.waveType.getD cur.waveType }
  let withTransition :=
    if optStringTruthy newConfig.flowSpeed && optStringFalsy newConfig.transition then
      { merged with transition := getTransitionTiming (newConfig.flowSpeed.getD "") }
    else merged
  if optStringTruthy newConfig.intensity && newConfig.fallbackColors.isNone then
    { withTransition with
        fallbackColors := getFallbackColors (newConfig.intensity.getD "") }
  else withTransition

/-- `generateWaveCSS` from `src/utils/index.ts`: pad to two colors with the
fixed fallback pair when fewer than two are supplied, then format a linear,
radial or conic gradient string. -/
def generateWaveCSS (colors : List String) (direction waveType : String) :
    String :=
  let colors' :=
    if colors.length < 2 then (colors ++ ["#6B46C1", "#EC4899"]).take 2
    else colors
  if waveType = "radial" then
    "radial-gradient(circle, " ++ String.intercalate ", " colors' ++ ")"
  else if waveType = "conic" then
    "conic-gradient(" ++ String.intercalate ", " colors' ++ ")"
  else
    "linear-gradient(" ++ direction ++ ", " ++ String.intercalate ", " colors' ++ ")"

/-- `WaveGenerator.ensureMinimumColors`: truncate to `colorCount`, topping up
from a copy of the configured fallback colors first when short. -/
def WaveGenerator.ensureMinimumColors (config : RequiredWaveConfig)
    (colors : List String) : List String :=
  if colors.length ≥ config.colorCount then colors.take config.colorCount
  else
    (colors ++ config.fallbackColors.take (config.colorCount - colors.length)).take
      config.colorCount

/-- `WaveGenerator.generateCSS`: `ensureMinimumColors` then `generateWaveCSS`
with the configured direction and wave type. -/
def WaveGenerator.generateCSS (config : RequiredWaveConfig)
    (colors : List String) : String :=
  generateWaveCSS (WaveGenerator.ensureMinimumColors config colors)
    config.direction config.waveType

/-- `WaveResult` from `src/types/index.ts`. -/
structure WaveResult where
  colors : List String
  css : String
  rgb : List ColorRGB
  intensity : String
  harmony : ℚ
  mood : String
  isFlowing : Bool
  error : Option String
deriving DecidableEq, Repr

/-- `Song.buildWaveResult` (`src/core/song.ts`): derive RGB from the hex
strings when no RGB list is supplied (defaulting a non-matching string to the
purple fallback — the inline regex is `hexToRgb`'s), then compute mood,
harmony, the CSS string, and a brightness-thresholded intensity label.
(For an empty color list JS computes `0/0 = NaN`, failing both threshold
tests; over `ℚ`, `0/0 = 0` takes the `"gentle"` branch instead — no claim
depends on the intensity of an empty result.) -/
def buildWaveResult (config : RequiredWaveConfig) (colors : List String)
    (isFlowing : Bool) (rgb : Option (List ColorRGB))
    (error : Option String) : WaveResult :=
  let rgbColors := match rgb with
    | some l => l
    | none => colors.map fun hex => (hexToRgb hex).getD ⟨107, 70, 193⟩
  let avgBrightness : ℚ :=
    (rgbColors.map calculateBrightness).sum / (rgbColors.length : ℚ)
  { colors := colors
    css := WaveGenerator.generateCSS config colors
    rgb := rgbColors
    intensity :=
      if avgBrightness > 180 then "energetic"
      else if avgBrightness < 100 then "gentle"
      else "medium"
    harmony := calculateHarmony rgbColors
    mood := analyzeColorMood rgbColors
    isFlowing := isFlowing
    error := error }

/-- `Map.prototype.get` on the cache, modelled as an association list in
insertion order. -/
def cacheGet : List (String × List String) → String → Option (List String)
  | [], _ => none
  | (k, v) :: rest, key => if k = key then some v else cacheGet rest key

/-- `Map.prototype.set`: overwrite in place when the key exists, append
otherwise. -/
def cacheSet : List (String × List String) → String → List String →
    List (String × List String)
  | [], key, v => [(key, v)]
  | (k, w) :: rest, key, v =>
    if k = key then (k, v) :: rest else (k, w) :: cacheSet rest key v

/-- The mutable state of a `Song` instance: the extractor's options, the
generator's configuration and the color cache. -/
structure SongState where
  extractorOptions : ExtractorOptionsReq
  config : RequiredWaveConfig
  cache : List (String × List String)
deriving DecidableEq, Repr

/-- The observable outcome of one `Song.createWaves` call: the resolved
`WaveResult`, the cache afterwards, the colors applied to the target element
(if one was given), and whether `extractColors` was invoked. -/
structure CreateWavesOut where
  result : WaveResult
  cache : List (String × List String)
  applied : Option (List String)
  extractorInvoked : Bool
deriving DecidableEq, Repr

/-- `Song.createWaves` (`src/core/song.ts`).  `extractOutcome` stands for
what `await this.extractor.extractColors(imageSource, 2)` would do on this
call: resolve with RGB colors or reject with an error message.  On a cache
hit the extractor is never consulted; on a miss its colors are hex-converted,
cached and applied; the `catch` turns a rejection into a non-flowing result
carrying the configured fallback colors, which is still applied to the
element. -/
def Song.createWaves (s : SongState) (cacheKey : String) (hasElement : Bool)
    (extractOutcome : Except String (List ColorRGB)) : CreateWavesOut :=
  match cacheGet s.cache cacheKey with
  | some cachedColors =>
    { result := buildWaveResult s.config cachedColors true none none
      cache := s.cache
      applied := if hasElement then some cachedColors else none
      extractorInvoked := false }
  | none =>
    match extractOutcome with
    | Except.ok rgbColors =>
      let hexColors := rgbColors.map rgbToHex
      { result := buildWaveResult s.config hexColors true (some rgbColors) none
        cache := cacheSet s.cache cacheKey hexColors
        applied := if hasElement then some hexColors else none
        extractorInvoked := true }
    | Except.error e =>
      { result := buildWaveResult s.config s.config.fallbackColors false none (some e)
        cache := s.cache
        applied := if hasElement then some s.config.fallbackColors else none
        extractorInvoked := true }

/-- The message of the `Error` rejected when an image source fails to load
(`src/core/color-extractor.ts`). -/
def loadErrorMessage (imageSource : String) : String :=
  "Failed to load image: " ++ imageSource

theorem loadErrorMessage_ne_empty (imageSource : String) :
    loadErrorMessage imageSource ≠ "" := by
  intro h
  have hlen : (loadErrorMessage imageSource).length = 0 := by rw [h]; rfl
  rw [loadErrorMessage, String.length_append] at hlen
  have h22 : ("Failed to load image: " : String).length = 22 := rfl
  omega

/-- C3: when extraction rejects (here with a load error) on an uncached
source, `createWaves` still resolves: the result is not flowing, carries the
configured fallback colors and a non-empty error message, and the fallback
colors are applied to the target element when one was given. -/
theorem createWaves_error_fallback (s : SongState)
    (cacheKey imageSource : String) (hasElement : Bool)
    (hmiss : cacheGet s.cache cacheKey = none) :
    (Song.createWaves s cacheKey hasElement
      (Except.error (loadErrorMessage imageSource))).result.isFlowing = false ∧
    (Song.createWaves s cacheKey hasElement
      (Except.error (loadErrorMessage imageSource))).result.colors
        = s.config.fallbackColors ∧
    (Song.createWaves s cacheKey hasElement
      (Except.error (loadErrorMessage imageSource))).result.error
        = some (loadErrorMessage imageSource) ∧
    loadErrorMessage imageSource ≠ "" ∧
    (hasElement = true →
      (Song.createWaves s cacheKey hasElement
        (Except.error (loadErrorMessage imageSource))).applied
          = some s.config.fallbackColors) := by
  simp only [Song.createWaves, hmiss]
  exact ⟨rfl, rfl, rfl, loadErrorMessage_ne_empty imageSource,
    fun he => by rw [he]; rfl⟩

/-- A concrete freshly constructed `Song` state (all options defaulted,
empty cache) used by the witnesses below. -/
def sampleSongState : SongState :=
  { extractorOptions := ColorExtractor.initOptions {}
    config := WaveGenerator.initConfig {}
    cache := [] }

/-- C3 witness: the load-error scenario on a fresh `Song` with a target
element. -/
theorem createWaves_error_fallback_witness :
    (Song.createWaves sampleSongState "img.png" true
      (Except.error (loadErrorMessage "img.png"))).result.isFlowing = false ∧
    (Song.createWaves sampleSongState "img.png" true
      (Except.error (loadErrorMessage "img.png"))).result.colors
        = sampleSongState.config.fallbackColors ∧
    (Song.createWaves sampleSongState "img.png" true
      (Except.error (loadErrorMessage "img.png"))).result.error
        = some (loadErrorMessage "img.png") ∧
    loadErrorMessage "img.png" ≠ "" ∧
    (true = true →
      (Song.createWaves sampleSongState "img.png" true
        (Except.error (loadErrorMessage "img.png"))).applied
          = some sampleSongState.config.fallbackColors) :=
  createWaves_error_fallback sampleSongState "img.png" "img.png" true rfl

/-- The public operations of a `Song` instance (`src/core/song.ts`), each
carrying only what is relevant to the instance state.  The cache-reading /
cache-writing operations go through `createWaves`; image sources are
identified by their cache key and the extractor's behaviour on a miss is the
`outcome` argument, as in `Song.createWaves`. -/
inductive SongOp where
  | createWaves (key : String) (hasElement : Bool)
      (outcome : Except String (List ColorRGB))
  | flowToElements (key : String) (outcome : Except String (List ColorRGB))
  | generateWaveCSSVars (key : String) (outcome : Except String (List ColorRGB))
  | applyGlobalWaves (key : String) (outcome : Except String (List ColorRGB))
  | preloadColors (key : String) (outcome : Except String (List ColorRGB))
  | enableFlowAnimation
  | disableFlowAnimation
  | updateExtractorOptions (options : ExtractorOptionsPartial)
  | updateWaveConfig (config : WaveConfig)
  | getExtractorOptions
  | getWaveConfig
  | clearCache
  | getCacheStats
  | destroy
deriving Repr

/-- Effect of each `Song` operation on the instance state.
`flowToElements`, `generateWaveCSS`, `applyGlobalWaves` and `preloadColors`
all delegate to `createWaves` (with no per-element application);
`updateExtractorOptions` forwards to the extractor and then calls
`clearCache()`; `destroy` destroys the extractor and clears the cache; the
animation toggles and getters do not touch the state. -/
def Song.applyOp (s : SongState) : SongOp → SongState
  | SongOp.createWaves key hasElement outcome =>
    { s with cache := (Song.createWaves s key hasElement outcome).cache }
  | SongOp.flowToElements key outcome =>
    { s with cache := (Song.createWaves s key false outcome).cache }
  | SongOp.generateWaveCSSVars key outcome =>
    { s with cache := (Song.createWaves s key false outcome).cache }
  | SongOp.applyGlobalWaves key outcome =>
    { s with cache := (Song.createWaves s key false outcome).cache }
  | SongOp.preloadColors key outcome =>
    { s with cache := (Song.createWaves s key false outcome).cache }
  | SongOp.enableFlowAnimation => s
  | SongOp.disableFlowAnimation => s
  | SongOp.updateExtractorOptions options =>
    { s with
        extractorOptions := ColorExtractor.updateOptions s.extractorOptions options
        cache := [] }
  | SongOp.updateWaveConfig config =>
    { s with config := WaveGenerator.updateConfig s.config config }
  | SongOp.getExtractorOptions => s
  | SongOp.getWaveConfig => s
  | SongOp.clearCache => { s with cache := [] }
  | SongOp.getCacheStats => s
  | SongOp.destroy => { s with cache := [] }

/-- C4 counterexample: `updateExtractorOptions` is an operation other than
`clearCache` and `destroy`, yet it drops a cached entry. -/
theorem cache_dropped_by_updateExtractorOptions :
    cacheGet [("img", ["#6b46c1", "#ec4899"])] "img"
        = some ["#6b46c1", "#ec4899"] ∧
    cacheGet (Song.applyOp
        { extractorOptions := ColorExtractor.initOptions {}
          config := WaveGenerator.initConfig {}
          cache := [("img", ["#6b46c1", "#ec4899"])] }
        (SongOp.updateExtractorOptions {})).cache "img" = none ∧
    SongOp.updateExtractorOptions {} ≠ SongOp.clearCache ∧
    SongOp.updateExtractorOptions {} ≠ SongOp.destroy :=
  ⟨rfl, rfl, fun h => SongOp.noConfusion h, fun h => SongOp.noConfusion h⟩

theorem cacheGet_cacheSet_self (c : List (String × List String)) (key : String)
    (v : List String) : cacheGet (cacheSet c key v) key = some v := by
  induction c with
  | nil => simp [cacheSet, cacheGet]
  | cons p rest ih =>
    obtain ⟨k, w⟩ := p
    by_cases hk : k = key
    · simp [cacheSet, cacheGet, hk]
    · simp [cacheSet, cacheGet, hk, ih]

theorem cacheGet_cacheSet_ne (c : List (String × List String))
    (key key' : String) (v : List String) (h : key ≠ key') :
    cacheGet (cacheSet c key v) key' = cacheGet c key' := by
  induction c with
  | nil => simp [cacheSet, cacheGet, h]
  | cons p rest ih =>
    obtain ⟨k, w⟩ := p
    by_cases hk : k = key
    · subst hk
      simp [cacheSet, cacheGet, h]
    · simp [cacheSet, cacheGet, hk, ih]

theorem cacheSet_keys_mem (c : List (String × List String)) (key : String)
    (v : List String) (x : String)
    (h : x ∈ (cacheSet c key v).map Prod.fst) :
    x ∈ c.map Prod.fst ∨ x = key := by
  induction c with
  | nil => simpa [cacheSet] using h
  | cons p rest ih =>
    obtain ⟨k, w⟩ := p
    by_cases hk : k = key
    · subst hk
      rw [cacheSet, if_pos rfl] at h
      simp only [List.map_cons, List.mem_cons] at h ⊢
      tauto
    · rw [cacheSet, if_neg hk] at h
      simp only [List.map_cons, List.mem_cons] at h ⊢
      rcases h with h | h
      · tauto
      · rcases ih h with h' | h' <;> tauto

theorem cacheSet_nodup (c : List (String × List String)) (key : String)
    (v : List String) (h : (c.map Prod.fst).Nodup) :
    ((cacheSet c key v).map Prod.fst).Nodup := by
  induction c with
  | nil => simp [cacheSet]
  | cons p rest ih =>
    obtain ⟨k, w⟩ := p
    simp only [List.map_cons, List.nodup_cons] at h
    by_cases hk : k = key
    · subst hk
      rw [cacheSet, if_pos rfl]
      simp only [List.map_cons, List.nodup_cons]
      exact h
    · rw [cacheSet, if_neg hk]
      simp only [List.map_cons, List.nodup_cons]
      refine ⟨?_, ih h.2⟩
      intro hmem
      rcases cacheSet_keys_mem rest key v k hmem with h' | h'
      · exact h.1 h'
      · exact hk h'

theorem createWaves_cache_cases (s : SongState) (key : String)
    (hasElement : Bool) (outcome : Except String (List ColorRGB)) :
    (Song.createWaves s key hasElement outcome).cache = s.cache ∨
    ∃ hex, (Song.createWaves s key hasElement outcome).cache
        = cacheSet s.cache key hex := by
  cases hget : cacheGet s.cache key with
  | some v =>
    left
    simp [Song.createWaves, hget]
  | none =>
    cases outcome with
    | ok rgbColors =>
      right
      exact ⟨rgbColors.map rgbToHex, by simp [Song.createWaves, hget]⟩
    | error e =>
      left
      simp [Song.createWaves, hget]

theorem cache_after_createWaves (s : SongState) (key : String)
    (hasElement : Bool) (outcome : Except String (List ColorRGB))
    (key' : String) (v : List String)
    (hget : cacheGet s.cache key' = some v) :
    (∃ v', cacheGet (Song.createWaves s key hasElement outcome).cache key'
        = some v') ∧
    ((s.cache.map Prod.fst).Nodup →
      ((Song.createWaves s key hasElement outcome).cache.map Prod.fst).Nodup) := by
  rcases createWaves_cache_cases s key hasElement outcome with hc | ⟨hex, hc⟩
  · rw [hc]
    exact ⟨⟨v, hget⟩, fun h => h⟩
  · rw [hc]
    constructor
    · by_cases hk : key = key'
      · exact ⟨hex, by rw [← hk, cacheGet_cacheSet_self]⟩
      · exact ⟨v, by rw [cacheGet_cacheSet_ne s.cache key key' hex hk, hget]⟩
    · exact cacheSet_nodup s.cache key hex

/-- C4 amended: for every `Song` operation other than `clearCache`,
`destroy` *and* `updateExtractorOptions` (which also clears the cache when
options change), a cached entry survives the operation (possibly overwritten
for the same identifier), and every operation preserves key uniqueness of
the cache. -/
theorem cache_persistence (s : SongState) (op : SongOp) (key : String)
    (v : List String)
    (h1 : ∀ o, op ≠ SongOp.updateExtractorOptions o)
    (h2 : op ≠ SongOp.clearCache) (h3 : op ≠ SongOp.destroy)
    (hget : cacheGet s.cache key = some v) :
    (∃ v', cacheGet (Song.applyOp s op).cache key = some v') ∧
    ((s.cache.map Prod.fst).Nodup →
      ((Song.applyOp s op).cache.map Prod.fst).Nodup) := by
  cases op with
  | createWaves k he outcome =>
    simpa only [Song.applyOp] using cache_after_createWaves s k he outcome key v hget
  | flowToElements k outcome =>
    simpa only [Song.applyOp] using cache_after_createWaves s k false outcome key v hget
  | generateWaveCSSVars k outcome =>
    simpa only [Song.applyOp] using cache_after_createWaves s k false outcome key v hget
  | applyGlobalWaves k outcome =>
    simpa only [Song.applyOp] using cache_after_createWaves s k false outcome key v hget
  | preloadColors k outcome =>
    simpa only [Song.applyOp] using cache_after_createWaves s k false outcome key v hget
  | enableFlowAnimation => exact ⟨⟨v, hget⟩, fun h => h⟩
  | disableFlowAnimation => exact ⟨⟨v, hget⟩, fun h => h⟩
  | updateExtractorOptions o => exact absurd rfl (h1 o)
  | updateWaveConfig c => exact ⟨⟨v, hget⟩, fun h => h⟩
  | getExtractorOptions => exact ⟨⟨v, hget⟩, fun h => h⟩
  | getWaveConfig => exact ⟨⟨v, hget⟩, fun h => h⟩
  | clearCache => exact absurd rfl h2
  | getCacheStats => exact ⟨⟨v, hget⟩, fun h => h⟩
  | destroy => exact absurd rfl h3

/-- C4 amended, witness: a stats read leaves the single cached entry in
place. -/
theorem cache_persistence_witness :
    (∃ v', cacheGet (Song.applyOp
        { extractorOptions := ColorExtractor.initOptions {}
          config := WaveGenerator.initConfig {}
          cache := [("img", ["#6b46c1"])] } SongOp.getCacheStats).cache "img"
          = some v') ∧
    ((([("img", ["#6b46c1"])] : List (String × List String)).map Prod.fst).Nodup →
      ((Song.applyOp
        { extractorOptions := ColorExtractor.initOptions {}
          config := WaveGenerator.initConfig {}
          cache := [("img", ["#6b46c1"])] } SongOp.getCacheStats).cache.map
          Prod.fst).Nodup) :=
  cache_persistence
    { extractorOptions := ColorExtractor.initOptions {}
      config := WaveGenerator.initConfig {}
      cache := [("img", ["#6b46c1"])] }
    SongOp.getCacheStats "img" ["#6b46c1"]
    (fun o h => SongOp.noConfusion h) (fun h => SongOp.noConfusion h)
    (fun h => SongOp.noConfusion h) rfl

theorem createWaves_hit (s : SongState) (key : String) (hasElement : Bool)
    (outcome : Except String (List ColorRGB)) (cached : List String)
    (hhit : cacheGet s.cache key = some cached) :
    Song.createWaves s key hasElement outcome =
      { result := buildWaveResult s.config cached true none none
        cache := s.cache
        applied := if hasElement then some cached else none
        extractorInvoked := false } := by
  rw [Song.createWaves.eq_def, hhit]

/-- C9: after a successful `createWaves` for an uncached identifier, a second
call with the same identifier does not invoke the extractor, returns exactly
the colors cached by the first call (the first call's returned colors), and
leaves the cache unchanged. -/
theorem createWaves_second_call_cached (s : SongState) (key : String)
    (hasEl1 hasEl2 : Bool) (rgbColors : List ColorRGB)
    (outcome2 : Except String (List ColorRGB))
    (hmiss : cacheGet s.cache key = none) :
    (Song.createWaves
        { s with cache := (Song.createWaves s key hasEl1 (Except.ok rgbColors)).cache }
        key hasEl2 outcome2).extractorInvoked = false ∧
    (Song.createWaves
        { s with cache := (Song.createWaves s key hasEl1 (Except.ok rgbColors)).cache }
        key hasEl2 outcome2).result.colors = rgbColors.map rgbToHex ∧
    (Song.createWaves
        { s with cache := (Song.createWaves s key hasEl1 (Except.ok rgbColors)).cache }
        key hasEl2 outcome2).result.colors
      = (Song.createWaves s key hasEl1 (Except.ok rgbColors)).result.colors ∧
    (Song.createWaves
        { s with cache := (Song.createWaves s key hasEl1 (Except.ok rgbColors)).cache }
        key hasEl2 outcome2).cache
      = (Song.createWaves s key hasEl1 (Except.ok rgbColors)).cache := by
  have hcache1 : (Song.createWaves s key hasEl1 (Except.ok rgbColors)).cache
      = cacheSet s.cache key (rgbColors.map rgbToHex) := by
    simp [Song.createWaves, hmiss]
  have hcolors1 : (Song.createWaves s key hasEl1 (Except.ok rgbColors)).result.colors
      = rgbColors.map rgbToHex := by
    simp [Song.createWaves, hmiss, buildWaveResult]
  have hhit : cacheGet
      ({ s with cache := (Song.createWaves s key hasEl1 (Except.ok rgbColors)).cache }
        : SongState).cache key = some (rgbColors.map rgbToHex) := by
    show cacheGet (Song.createWaves s key hasEl1 (Except.ok rgbColors)).cache key
      = some (rgbColors.map rgbToHex)
    rw [hcache1]
    exact cacheGet_cacheSet_self s.cache key (rgbColors.map rgbToHex)
  have houter := createWaves_hit
    { s with cache := (Song.createWaves s key hasEl1 (Except.ok rgbColors)).cache }
    key hasEl2 outcome2 (rgbColors.map rgbToHex) hhit
  rw [houter]
  exact ⟨rfl, rfl, hcolors1.symm, rfl⟩

/-- C9 witness: a fresh `Song`, one successful extraction of a single color,
then a second call for the same identifier (whose would-be extraction
rejects, which the hit ignores). -/
theorem createWaves_second_call_cached_witness :
    (Song.createWaves
        { sampleSongState with
            cache := (Song.createWaves sampleSongState "k" true
              (Except.ok [⟨120, 120, 120⟩])).cache }
        "k" false (Except.error "never consulted")).extractorInvoked = false ∧
    (Song.createWaves
        { sampleSongState with
            cache := (Song.createWaves sampleSongState "k" true
              (Except.ok [⟨120, 120, 120⟩])).cache }
        "k" false (Except.error "never consulted")).result.colors
      = [⟨120, 120, 120⟩].map rgbToHex ∧
    (Song.createWaves
        { sampleSongState with
            cache := (Song.createWaves sampleSongState "k" true
              (Except.ok [⟨120, 120, 120⟩])).cache }
        "k" false (Except.error "never consulted")).result.colors
      = (Song.createWaves sampleSongState "k" true
          (Except.ok [⟨120, 120, 120⟩])).result.colors ∧
    (Song.createWaves
        { sampleSongState with
            cache := (Song.createWaves sampleSongState "k" true
              (Except.ok [⟨120, 120, 120⟩])).cache }
        "k" false (Except.error "never consulted")).cache
      = (Song.createWaves sampleSongState "k" true
          (Except.ok [⟨120, 120, 120⟩])).cache :=
  createWaves_second_call_cached sampleSongState "k" true false
    [⟨120, 120, 120⟩] (Except.error "never consulted") rfl
